import Mathlib

/-!
# Student-record extraction and averaging: a shallow embedding

This file embeds the grade-record extraction and averaging pipeline of the
student-record analysis tool (`utils.py`, `analysis/grade_calculator.py`) as
executable Lean definitions, and proves / refutes the specification claims
about it.

Modelling conventions:
* A CSV cell is `Option String`; `none` models a pandas `NaN` (missing value).
  Dtype inference by `pandas.read_csv` is out of scope: every non-missing cell
  is its string text (`analyze_grades`, which is sensitive to numeric dtype,
  gets its own scalar type `PyScalar`).
* Python `float` values are modelled as `ℚ` (the pipeline only ever performs
  exact decimal arithmetic on them; binary rounding of IEEE floats is not
  modelled).
* `float(s)` string parsing is modelled for signed decimal literals
  (optional sign, digits, optional fraction); exponent, `inf`/`nan` and
  underscore forms — which the report-card data never contains — are modelled
  as parse failures.
* Python dicts keyed by strings are association lists with Python's
  insertion-order update semantics (`dictInsert`).
* DataFrame label lookup is positional on the stored label list; duplicate
  column labels behave as their first occurrence (pandas would return a
  sub-DataFrame there, which no claim exercises).
* Functions that can raise model this with `Except PyErr`; a `try/except`
  handler is an explicit `match` on that result.
-/

namespace SRA

/-- A spreadsheet cell: `none` is pandas `NaN`. -/
abbrev Cell := Option String

/-- One row of raw cells. -/
abbrev Row := List Cell

/-- The raw rectangular grid decoded from one CSV file. -/
abbrev Grid := List Row

/-- Python exception values that the modelled code can raise. -/
inductive PyErr where
  /-- `raise Exception(msg)` — the untyped catch-all exception class. -/
  | generic (msg : String)
  /-- `pandas.errors.EmptyDataError` from `read_csv` on empty input. -/
  | emptyData
  /-- `IndexError` from an out-of-range `iloc`. -/
  | indexError
  /-- `ValueError`, e.g. from `float()` on a non-numeric string or a
  mismatched column-name assignment. -/
  | valueError
  /-- `ZeroDivisionError`. -/
  | zeroDivision
deriving Repr, DecidableEq

/-! ## String primitives (structural, kernel-computable) -/

/-- The whitespace characters `str.strip()` removes (the ones occurring in
this data; the full Python set also has vertical tab/form feed and Unicode
spaces, never present in these CSV exports). -/
def isPySpace (c : Char) : Bool := c == ' ' || c == '\t' || c == '\n' || c == '\r'

/-- Drop leading whitespace. -/
def dropSpaces : List Char → List Char
  | [] => []
  | c :: t => if isPySpace c then dropSpaces t else c :: t

/-- `str.strip()` on a character list. -/
def pyStripChars (l : List Char) : List Char :=
  dropSpaces ((dropSpaces l.reverse).reverse)

/-- `str.strip()`. -/
def pyStrip (s : String) : String := ⟨pyStripChars s.data⟩

/-- `str(x)` on a cell: pandas `NaN` prints as `"nan"`. -/
def pyStr (c : Cell) : String :=
  match c with
  | some s => s
  | none => "nan"

/-- Does `pat` occur at the start of the list? (Python `s.startswith`). -/
def startsWithChars : List Char → List Char → Bool
  | [], _ => true
  | _ :: _, [] => false
  | a :: as, b :: bs => a == b && startsWithChars as bs

/-- Does `needle` occur as a contiguous sublist? (Python `needle in hay`). -/
def hasSubChars (needle : List Char) : List Char → Bool
  | [] => startsWithChars needle []
  | c :: t => startsWithChars needle (c :: t) || hasSubChars needle t

/-- Python's substring test `needle in hay`. -/
def strHasSub (hay needle : String) : Bool := hasSubChars needle.data hay.data

/-- `str.lower()` (ASCII case folding; Korean text is unaffected, exactly as
in Python). -/
def pyLower (s : String) : String := ⟨s.data.map Char.toLower⟩

/-- `s.split('/')[0]` — everything before the first `'/'` (the whole string
when there is none; Python's `split` never returns an empty list). -/
def takeUntilSlash : List Char → List Char
  | [] => []
  | c :: t => if c = '/' then [] else c :: takeUntilSlash t

/-- `s.split('/')[0]` on strings. -/
def headSlash (s : String) : String := ⟨takeUntilSlash s.data⟩

/-! ## `float()` parsing -/

/-- Value of a digit string (the call sites guarantee all characters are
digits). -/
def digitsToNat (l : List Char) : ℕ := l.foldl (fun a c => 10 * a + (c.toNat - 48)) 0

/-- Split at the first `'.'`: integer digits, and the rest if a dot exists. -/
def splitFirstDot : List Char → List Char × Option (List Char)
  | [] => ([], none)
  | c :: t =>
    if c = '.' then ([], some t)
    else
      let p := splitFirstDot t
      (c :: p.1, p.2)

/-- A successfully parsed decimal literal, kept in structural form so that
string processing stays kernel-computable; `toRat` gives its value. -/
structure PyDec where
  neg : Bool
  intPart : ℕ
  fracPart : ℕ
  fracLen : ℕ
deriving Repr, DecidableEq

/-- The rational value of a parsed decimal literal. -/
def PyDec.toRat (d : PyDec) : ℚ :=
  let m : ℚ := (d.intPart : ℚ) + (d.fracPart : ℚ) / (10 : ℚ) ^ d.fracLen
  if d.neg then -m else m

/-- Parse a Python `float()` argument (signed decimal literal, surrounding
whitespace allowed). `none` models the `ValueError`. -/
def pyParseDec (s : String) : Option PyDec :=
  match pyStripChars s.data with
  | [] => none
  | cs =>
    let p : Bool × List Char :=
      match cs with
      | '+' :: t => (false, t)
      | '-' :: t => (true, t)
      | t => (false, t)
    match splitFirstDot p.2 with
    | (ip, none) =>
      if ip ≠ [] ∧ ip.all Char.isDigit then some ⟨p.1, digitsToNat ip, 0, 0⟩ else none
    | (ip, some fp) =>
      if (ip ≠ [] ∨ fp ≠ []) ∧ ip.all Char.isDigit ∧ fp.all Char.isDigit then
        some ⟨p.1, digitsToNat ip, digitsToNat fp, fp.length⟩
      else none

/-- `float(s)` as a rational, `none` on `ValueError`. -/
def pyFloat? (s : String) : Option ℚ := (pyParseDec s).map PyDec.toRat

/-- Python's `round(x, 2)`. Exact ties (never produced by this data) are
modelled half-up; Python rounds the nearest binary double. -/
def round2 (q : ℚ) : ℚ := (⌊q * 100 + 1 / 2⌋ : ℚ) / 100

/-! ## Python dicts as association lists -/

/-- `d[k] = v` on a Python dict: update in place if the key exists (keeping
its position), else append. -/
def dictInsert {α : Type} : List (String × α) → String → α → List (String × α)
  | [], k, v => [(k, v)]
  | (k', v') :: t, k, v =>
    if k' = k then (k', v) :: t else (k', v') :: dictInsert t k v

/-- `d.get(k)`: the value stored at key `k`. -/
def dictFind? {α : Type} : List (String × α) → String → Option α
  | [], _ => none
  | (k', v') :: t, k => if k' = k then some v' else dictFind? t k

/-! ## DataFrames -/

/-- A pandas DataFrame: column labels plus rows of cells. -/
structure DataFrame where
  cols : List String
  rows : List Row
deriving Repr, DecidableEq

/-- `df.empty` (either axis has length zero). -/
def DataFrame.isEmptyDf (df : DataFrame) : Bool := df.rows.isEmpty || df.cols.isEmpty

/-- Cell at position `j` of a row; out of range is `NaN` (pandas pads short
CSV lines with `NaN` up to the header width). -/
def getCell (r : Row) (j : ℕ) : Cell := (r.get? j).getD none

/-- Normalise a raw row to width `w` (pandas gives every row exactly the
header's number of columns). -/
def normRow (w : ℕ) (r : Row) : Row := (List.range w).map (getCell r)

/-- Index of the first occurrence of `label` in a label list. -/
def idxOf? (label : String) : List String → Option ℕ
  | [] => none
  | c :: t => if c = label then some 0 else (idxOf? label t).map (· + 1)

/-- Index of the first column with the given label. -/
def colIdx? (df : DataFrame) (label : String) : Option ℕ :=
  idxOf? label df.cols

/-- `df[label]`: the column's cells, top to bottom. -/
def colCells (df : DataFrame) (label : String) : List Cell :=
  match colIdx? df label with
  | none => []
  | some j => df.rows.map (fun r => getCell r j)

/-- `series.dropna().iloc[0]`: first non-missing cell of a column. -/
def firstSome (l : List Cell) : Option String := (l.filterMap id).head?

/-! ## `extract_student_info` (utils.py lines 95–323) -/

/-- One stored course result: `{'raw_score': …, 'rank': …, 'credit': …}`. -/
structure GradeInfo where
  raw_score : ℚ
  rank : ℚ
  credit : ℚ
deriving Repr, DecidableEq

/-- Per-semester averages `{'total': …, 'main_subjects': …}`. -/
structure SemAvg where
  total : ℚ
  main_subjects : ℚ
deriving Repr, DecidableEq

/-- One semester's block `{'grades': …, 'average': …}`. -/
structure SemGrades where
  grades : List (String × GradeInfo)
  average : SemAvg
deriving Repr, DecidableEq

/-- The structured record `extract_student_info` returns. The source stores
the career string twice (`special_notes.career` and `career_aspiration`,
always equal); the model keeps it once. -/
structure StudentInfo where
  subjects : List (String × String)
  activities : List (String × String)
  career : String
  semester1 : SemGrades
  semester2 : SemGrades
  total_average : SemAvg
deriving Repr, DecidableEq

/-- The subject-remark column labels (utils.py line 115). -/
def subjectCols : List String :=
  ["국어", "수학", "영어", "한국사", "사회", "과학", "과학탐구실험", "정보", "체육", "음악", "미술"]

/-- The activity-remark column labels (utils.py line 116). -/
def activityCols : List String := ["자율", "동아리", "진로", "행특", "개인"]

/-- The `main_subjects` whitelist of `extract_student_info` (line 155),
matched by exact name. -/
def mainSubjectsExtract : List String := ["국어", "수학", "영어", "사회", "과학", "한국사", "정보"]

/-- Accumulator for the remarks loop: subject remarks, activity remarks,
career aspiration. -/
structure RemarksAcc where
  subjects : List (String × String)
  activities : List (String × String)
  career : String
deriving Repr, DecidableEq

/-- One iteration of the remarks loop (lines 129–150): classify the column
label and record its first non-missing, non-empty value. -/
def remarksStep (df : DataFrame) (acc : RemarksAcc) (col : String) : RemarksAcc :=
  let cells := colCells df col
  if col ∈ subjectCols ∧ cells.any Option.isSome then
    let val := (firstSome cells).getD ""
    if val ≠ "" then { acc with subjects := dictInsert acc.subjects col val } else acc
  else if col ∈ activityCols ∨ activityCols.any (fun act => strHasSub col act) then
    let val := (firstSome cells).getD ""
    if val ≠ "" then { acc with activities := dictInsert acc.activities col val } else acc
  else if col = "진로희망" then
    let val := (firstSome cells).getD "미정"
    if val ≠ "" then { acc with career := val } else acc
  else acc

/-- The remarks block of `extract_student_info` (lines 111–152). -/
def extractRemarks (sn : DataFrame) : RemarksAcc :=
  if sn.isEmptyDf then ⟨[], [], "미정"⟩
  else sn.cols.foldl (remarksStep sn) ⟨[], [], "미정"⟩

/-- The column indices identified by the substring scan of lines 166–178.
`none` means no column label contained the keyword. -/
structure GradeColIdx where
  sem? : Option ℕ
  subj? : Option ℕ
  raw? : Option ℕ
  rank? : Option ℕ
  credit? : Option ℕ
deriving Repr, DecidableEq

/-- One iteration of the column scan: an `elif` chain of substring tests on
the lower-cased label; a later column overwrites an earlier match. -/
def classifyStep (acc : GradeColIdx) (ic : ℕ × String) : GradeColIdx :=
  let c := pyLower ic.2
  if strHasSub c "학기" then { acc with sem? := some ic.1 }
  else if strHasSub c "과목" then { acc with subj? := some ic.1 }
  else if strHasSub c "원점수" then { acc with raw? := some ic.1 }
  else if strHasSub c "석차등급" then { acc with rank? := some ic.1 }
  else if strHasSub c "학점수" then { acc with credit? := some ic.1 }
  else acc

/-- The full column scan of lines 166–178. -/
def classifyCols (cols : List String) : GradeColIdx :=
  cols.enum.foldl classifyStep ⟨none, none, none, none, none⟩

/-- `row[col]` when the scan identified a column, `NaN` otherwise (the source
guards every access with `col and pd.notna(row[col])`). -/
def cellAt? (r : Row) (j? : Option ℕ) : Cell :=
  match j? with
  | none => none
  | some j => getCell r j

/-- The two per-semester grade dicts being filled. -/
structure SemDicts where
  d1 : List (String × GradeInfo)
  d2 : List (String × GradeInfo)
deriving Repr, DecidableEq

/-- One iteration of the grades loop (lines 187–233): parse rank grade
(default 0), raw score (first `/`-token, default 0), credit (default 1.0),
and store the course only when the rank grade is positive. -/
def extractGradeRow (gc : GradeColIdx) (acc : SemDicts) (r : Row) : SemDicts :=
  match gc.sem?, gc.subj? with
  | some i, some j =>
    match getCell r i, getCell r j with
    | some semRaw, some subjRaw =>
      let semester := pyStrip semRaw
      let subject := pyStrip subjRaw
      if semester = "1" ∨ semester = "2" then
        let gradeValue : ℚ :=
          match cellAt? r gc.rank? with
          | some s => (pyFloat? (pyStrip s)).getD 0
          | none => 0
        let rawScore : ℚ :=
          match cellAt? r gc.raw? with
          | some s => (pyFloat? (headSlash (pyStrip s))).getD 0
          | none => 0
        let credit : ℚ :=
          match cellAt? r gc.credit? with
          | some s => (pyFloat? (pyStrip s)).getD 1
          | none => 1
        if 0 < gradeValue then
          let info : GradeInfo := ⟨rawScore, gradeValue, credit⟩
          if semester = "1" then { acc with d1 := dictInsert acc.d1 subject info }
          else { acc with d2 := dictInsert acc.d2 subject info }
        else acc
      else acc
    | _, _ => acc
  | _, _ => acc

/-- The grade dicts built from the grades DataFrame (lines 157–233). -/
def extractSemDicts (grades : DataFrame) : SemDicts :=
  if grades.isEmptyDf then ⟨[], []⟩
  else
    let gc := classifyCols grades.cols
    grades.rows.foldl (extractGradeRow gc) ⟨[], []⟩

/-- Per-semester average block of lines 236–259. Note that the source
averages the stored `raw_score`s (credit-weighted), not the rank grades. -/
def semAverageExtract (d : List (String × GradeInfo)) : SemAvg :=
  if d.isEmpty then ⟨0, 0⟩
  else
    let ws := (d.map (fun p => p.2.raw_score * p.2.credit)).sum
    let tc := (d.map (fun p => p.2.credit)).sum
    let total := if 0 < tc then ws / tc else 0
    let mains := d.filter (fun p => decide (p.1 ∈ mainSubjectsExtract))
    let mainAvg :=
      if ¬ mains.isEmpty then
        let mws := (mains.map (fun p => p.2.raw_score * p.2.credit)).sum
        let mtc := (mains.map (fun p => p.2.credit)).sum
        if 0 < mtc then mws / mtc else 0
      else 0
    ⟨total, mainAvg⟩

/-- The `try` body of `extract_student_info` (lines 97–305). In this grid
model none of its operations can raise: every division and subscript in the
source sits behind an explicit guard, and per-column / per-row `try` blocks
swallow anything else. -/
def extract_student_info_try (sn grades : DataFrame) : StudentInfo :=
  let rem := extractRemarks sn
  let sd := extractSemDicts grades
  let a1 := semAverageExtract sd.d1
  let a2 := semAverageExtract sd.d2
  let totalTotal :=
    if 0 < a1.total ∧ 0 < a2.total then (a1.total + a2.total) / 2
    else if 0 < a1.total then a1.total
    else if 0 < a2.total then a2.total
    else 0
  let totalMain :=
    if 0 < a1.main_subjects ∧ 0 < a2.main_subjects then (a1.main_subjects + a2.main_subjects) / 2
    else if 0 < a1.main_subjects then a1.main_subjects
    else if 0 < a2.main_subjects then a2.main_subjects
    else 0
  { subjects := rem.subjects
    activities := rem.activities
    career := rem.career
    semester1 := ⟨sd.d1, a1⟩
    semester2 := ⟨sd.d2, a2⟩
    total_average := ⟨totalTotal, totalMain⟩ }

/-- The hard-coded record returned by the `except` handler (lines 311–323). -/
def defaultStudentInfo : StudentInfo :=
  { subjects := []
    activities := []
    career := "미정"
    semester1 := ⟨[], ⟨0, 0⟩⟩
    semester2 := ⟨[], ⟨0, 0⟩⟩
    total_average := ⟨0, 0⟩ }

/-- The `except Exception` handler of lines 307–323: any raised error is
replaced by the default record. -/
def extract_recover : Except PyErr StudentInfo → StudentInfo
  | .ok r => r
  | .error _ => defaultStudentInfo

/-- `extract_student_info` (lines 95–323): run the `try` body — which cannot
raise in the grid model — through the recovery handler. -/
def extract_student_info (sn grades : DataFrame) : StudentInfo :=
  extract_recover (Except.ok (extract_student_info_try sn grades))

/-! ## `preprocess_csv` (utils.py lines 17–70) -/

/-- Is the row entirely `NaN` within width `w`? (`dropna(how='all')`). -/
def rowAllNull (w : ℕ) (r : Row) : Bool := (normRow w r).all (·.isNone)

/-- The column names `preprocess_csv` assigns to the grades block
(line 53). -/
def gradeColumns : List String :=
  ["학 기", "교 과", "과 목", "학점수", "원점수/과목평균\n (표준편차)", "성취도\n (수강자수)", "석차등급"]

/-- The outer handler's message prefix (line 70). -/
def preErr (reason : String) : PyErr :=
  .generic ("CSV 파일 전처리 중 오류 발생: " ++ reason)

/-- `df.dropna(how='all')`: keep the rows with at least one value. -/
def dropEmptyRows (w : ℕ) (rows : Grid) : Grid :=
  rows.filter (fun r => !(rowAllNull w r))

/-- `df.dropna(axis=1, how='all')`: the indices of columns holding at least
one value. -/
def keptCols (w : ℕ) (rows : Grid) : List ℕ :=
  (List.range w).filter (fun j => rows.any (fun r => (getCell r j).isSome))

/-- Restrict every row to the kept column indices. -/
def restrictRows (keep : List ℕ) (rows : Grid) : Grid :=
  rows.map (fun r => keep.map (fun j => getCell r j))

/-- `df[df.iloc[:, 0] == '학 기'].index[0]`: position of the first row whose
first cell is exactly `'학 기'`. -/
def gradeSectionIdx? : Grid → Option ℕ
  | [] => none
  | r :: t =>
    if getCell r 0 = some "학 기" then some 0 else (gradeSectionIdx? t).map (· + 1)

/-- `preprocess_csv`: find the `'학 기'` marker in column 0, split the grid
into a remarks block and a grades block. Raises only through the outer
handler, as a generic `Exception`. The `read_csv` header row is consumed as
initial labels; the first surviving data row is then promoted to labels
(lines 38–42). -/
def preprocess_csv (g : Grid) : Except PyErr (DataFrame × DataFrame) :=
  match g with
  | [] => .error (preErr "No columns to parse from file")
  | hdr :: body =>
    let w := hdr.length
    let labels0 := (normRow w hdr).map (fun c => c.getD "")
    let keep := keptCols w (dropEmptyRows w body)
    match restrictRows keep (dropEmptyRows w body) with
    | [] => .error (preErr "single positional indexer is out-of-bounds")
    | fvr :: rest =>
      let promote := fvr.any Option.isSome
      let labels := if promote then fvr.map (fun c => c.getD "")
                    else keep.map (fun j => (labels0.get? j).getD "")
      let dataRows := if promote then rest else fvr :: rest
      match gradeSectionIdx? dataRows with
      | none => .ok (⟨labels, dataRows⟩, ⟨[], []⟩)
      | some i =>
        if labels.length < gradeColumns.length then
          .error (preErr "Length mismatch in columns")
        else
          let gradeRows := ((dataRows.drop i).map (fun r => r.take gradeColumns.length)).filter
            (fun r => (getCell r 0).isSome ∨ (getCell r 1).isSome ∨ (getCell r 2).isSome)
          .ok (⟨labels, dataRows.take i⟩, ⟨gradeColumns, gradeRows⟩)

/-! ## `calculate_semester_average` (utils.py lines 623–643) -/

/-- Is `subj` a main subject for `calculate_semester_average`? The source
tests `any(key in subj for key in ['국어', '영어', '수학'])` — substring
containment, not exact membership. -/
def isMainKE (subj : String) : Bool :=
  ["국어", "영어", "수학"].any (fun key => strHasSub subj key)

/-- `calculate_semester_average`: simple (unweighted) means of the stored
rank grades, over all courses and over the `isMainKE` courses. -/
def calculate_semester_average (grades : List (String × GradeInfo)) : SemAvg :=
  if grades.isEmpty then ⟨0, 0⟩
  else
    let totalAvg := (grades.map (fun p => p.2.rank)).sum / (grades.length : ℚ)
    let mains := grades.filter (fun p => isMainKE p.1)
    let mainAvg :=
      if ¬ mains.isEmpty then (mains.map (fun p => p.2.rank)).sum / (mains.length : ℚ)
      else 0
    ⟨totalAvg, mainAvg⟩

/-! ## `process_csv_file` (utils.py lines 519–621) -/

/-- The record assembled by `process_csv_file` (it has no `'total'`
averages block). -/
structure ProcStudentData where
  subjects : List (String × String)
  activities : List (String × String)
  career : String
  semester1 : List (String × GradeInfo)
  average1 : SemAvg
  semester2 : List (String × GradeInfo)
  average2 : SemAvg
deriving Repr, DecidableEq

/-- The remarks pass of `process_csv_file` (lines 536–544): row 0 holds the
labels, row 1 the values; classification is by exact label. -/
def procRemarks (headers special : Row) : RemarksAcc :=
  headers.enum.foldl
    (fun acc ih =>
      match ih.2, getCell special ih.1 with
      | some h, some v =>
        if h ∈ subjectCols then { acc with subjects := dictInsert acc.subjects h v }
        else if h ∈ activityCols then { acc with activities := dictInsert acc.activities h v }
        else if h = "진로희망" then { acc with career := v }
        else acc
      | _, _ => acc)
    ⟨[], [], "미정"⟩

/-- One iteration of the grades loop of `process_csv_file` (lines 563–597):
positional columns `학기, 과목, 학점수, 원점수/과목평균, 성취도, 석차등급`;
a `float()` failure on rank or credit skips the whole row; an unparsable raw
score falls back to `100 - (rank - 1) * 10`. Zero rank grades are stored. -/
def procGradeRow (acc : SemDicts) (r : Row) : SemDicts :=
  let semester := pyStrip (pyStr (getCell r 0))
  let subject := pyStrip (pyStr (getCell r 1))
  match getCell r 5, getCell r 2 with
  | some rankS, some credS =>
    match pyFloat? rankS, pyFloat? credS with
    | some rank, some credit =>
      let rawScore : ℚ :=
        match getCell r 3 with
        | some rs =>
          match pyFloat? (pyStrip (headSlash rs)) with
          | some v => v
          | none => 100 - (rank - 1) * 10
        | none => 0
      let info : GradeInfo := ⟨rawScore, rank, credit⟩
      if semester = "1" then { acc with d1 := dictInsert acc.d1 subject info }
      else if semester = "2" then { acc with d2 := dictInsert acc.d2 subject info }
      else acc
    | _, _ => acc
  | _, _ => acc

/-- The `try` body of `process_csv_file`. Read with `header=None`, so every
grid row is data; remarks come from rows 0–1, grades from row 3 onward
(`grade_data_start = 3`), first 6 columns. -/
def process_csv_file_body (g : Grid) : Except PyErr ProcStudentData :=
  match g with
  | [] => .error .emptyData
  | hdrRow :: rest =>
    let w := hdrRow.length
    match rest with
    | [] => .error .indexError
    | snRow :: rest2 =>
      let headers := normRow w hdrRow
      let special := normRow w snRow
      let rem := procRemarks headers special
      if w < 6 then .error .valueError
      else
        let gradeRows := ((rest2.drop 1).map (fun r => (normRow w r).take 6)).filter
          (fun r => (getCell r 0).isSome ∨ (getCell r 1).isSome)
        let sd := gradeRows.foldl procGradeRow ⟨[], []⟩
        .ok
          { subjects := rem.subjects
            activities := rem.activities
            career := rem.career
            semester1 := sd.d1
            average1 := calculate_semester_average sd.d1
            semester2 := sd.d2
            average2 := calculate_semester_average sd.d2 }

/-- `process_csv_file` (lines 519–621): the outer `except` swallows every
error and returns the empty dict `{}`, modelled as `none`. -/
def process_csv_file (g : Grid) : Option ProcStudentData :=
  match process_csv_file_body g with
  | .ok d => some d
  | .error _ => none

/-! ## `calculate_average_grade` (analysis/grade_calculator.py lines 16–30) -/

/-- One entry of that script's grades data: `{'등급': …, '이수단위': …}`. -/
structure CGEntry where
  grade : ℚ
  credits : ℚ
deriving Repr, DecidableEq

/-- Its input: subject-keyed dicts for `'1학기'` and `'2학기'`. -/
structure CGData where
  sem1 : List (String × CGEntry)
  sem2 : List (String × CGEntry)
deriving Repr, DecidableEq

/-- `calculate_average_grade`: credit-weighted mean of rank grades over both
semesters, excluding the subject `'정보'`, rounded to 2 places. The division
`total_credit_grade / total_credits` is unguarded, so zero total credits is a
`ZeroDivisionError`. -/
def calculate_average_grade (d : CGData) : Except PyErr ℚ :=
  let entries := (d.sem1 ++ d.sem2).filter (fun p => decide (p.1 ≠ "정보"))
  let tcg := (entries.map (fun p => p.2.grade * p.2.credits)).sum
  let tc := (entries.map (fun p => p.2.credits)).sum
  if tc = 0 then .error .zeroDivision else .ok (round2 (tcg / tc))

/-! ## `analyze_grades` (utils.py lines 737–798)

This function receives a DataFrame whose `'학 기'` column it compares with
the integers 1 and 2 (`grade_data['학 기'] == 1`), so its cells must keep
their pandas dtype; `PyScalar` models a cell that is a string, a number, or
`NaN`. -/

/-- A pandas scalar as `analyze_grades` sees it. -/
inductive PyScalar where
  | str (v : String)
  | num (v : ℚ)
  | nan
deriving Repr, DecidableEq

/-- `pd.notna`. -/
def PyScalar.notna : PyScalar → Bool
  | .nan => false
  | _ => true

/-- `float(x)` on a scalar. Every call site guards against `NaN`
(`float(nan)` would yield the float `nan`, which `ℚ` cannot represent). -/
def PyScalar.toFloat? : PyScalar → Except PyErr ℚ
  | .num v => .ok v
  | .str v => match pyFloat? v with
    | some q => .ok q
    | none => .error .valueError
  | .nan => .error .valueError

/-- Python `x == q` for a number `q` (a string never equals a number). -/
def PyScalar.eqNum (x : PyScalar) (q : ℚ) : Bool :=
  match x with
  | .num v => v == q
  | _ => false

/-- One row of the `analyze_grades` input, restricted to the four columns it
reads: `'학 기'`, `'과 목'`, `'석차등급'`, `'학점수'`. -/
structure AgRow where
  semKi : PyScalar
  subj : PyScalar
  rank : PyScalar
  credits : PyScalar
deriving Repr, DecidableEq

/-- `main_subjects` of `analyze_grades` (line 740). -/
def agMainSubjects : List String := ["국어", "영어", "수학", "사회", "과학"]

/-- `all_subjects` of `analyze_grades` (line 741). -/
def agAllSubjects : List String := agMainSubjects ++ ["한국사", "정보"]

/-- Accumulator of the per-semester loop of lines 755–775. -/
structure AgAcc where
  byCourse : List (String × (ℚ × ℚ))
  totalCredits : ℚ
  weightedSum : ℚ
  gradesSum : ℚ
  count : ℕ
deriving Repr, DecidableEq

/-- One row of the per-semester loop: rows whose rank is missing or whose
subject is not whitelisted are skipped; `float()` failures propagate (the
loop has no `try`). Note a present rank of 0 is *not* skipped. -/
def agStep (acc : AgAcc) (r : AgRow) : Except PyErr AgAcc :=
  match r.subj with
  | .str subj =>
    if r.rank.notna ∧ subj ∈ agAllSubjects then
      match r.rank.toFloat? with
      | .error e => .error e
      | .ok grade =>
        match (if r.credits.notna then r.credits.toFloat? else .ok 1) with
        | .error e => .error e
        | .ok credits =>
          .ok ⟨dictInsert acc.byCourse subj (grade, credits),
            acc.totalCredits + credits, acc.weightedSum + grade * credits,
            acc.gradesSum + grade, acc.count + 1⟩
    else .ok acc
  | _ => .ok acc

/-- One semester's analysis block. -/
structure AgSemester where
  byCourse : List (String × (ℚ × ℚ))
  weighted : ℚ
  simple : ℚ
deriving Repr, DecidableEq

/-- The per-semester loop: row by row, stopping at the first uncaught
`float()` error, exactly as the Python `for` loop would. -/
def agFold (acc : AgAcc) : List AgRow → Except PyErr AgAcc
  | [] => .ok acc
  | r :: t =>
    match agStep acc r with
    | .error e => .error e
    | .ok acc2 => agFold acc2 t

/-- The per-semester pass: `가중_평균` and `단순_평균`, each rounded, left at
0 when nothing was counted. -/
def agSemester (rows : List AgRow) : Except PyErr AgSemester :=
  match agFold ⟨[], 0, 0, 0, 0⟩ rows with
  | .error e => .error e
  | .ok acc =>
    let w := if 0 < acc.totalCredits then round2 (acc.weightedSum / acc.totalCredits) else 0
    let s := if 0 < acc.count then round2 (acc.gradesSum / (acc.count : ℚ)) else 0
    .ok ⟨acc.byCourse, w, s⟩

/-- The full analysis result of `analyze_grades`. -/
structure AgResult where
  sem1 : AgSemester
  sem2 : AgSemester
  mainAvg : ℚ
  allAvg : ℚ
deriving Repr, DecidableEq

/-- `analyze_grades`: split rows on `'학 기' == 1` / `== 2`, analyse each
semester, then pool the *individual* counted grades of both semesters for
the `'전체'` block (lines 782–796) — a flat mean, not a mean of the semester
means. -/
def analyze_grades (rows : List AgRow) : Except PyErr AgResult :=
  let s1rows := rows.filter (fun r => r.semKi.eqNum 1)
  let s2rows := rows.filter (fun r => r.semKi.eqNum 2)
  match agSemester s1rows with
  | .error e => .error e
  | .ok a1 =>
    match agSemester s2rows with
    | .error e => .error e
    | .ok a2 =>
      let pool := a1.byCourse ++ a2.byCourse
      let mainGrades := (pool.filter (fun p => decide (p.1 ∈ agMainSubjects))).map (fun p => p.2.1)
      let allGrades := (pool.filter (fun p => decide (p.1 ∈ agAllSubjects))).map (fun p => p.2.1)
      let mainAvg := if ¬ mainGrades.isEmpty then round2 (mainGrades.sum / (mainGrades.length : ℚ)) else 0
      let allAvg := if ¬ allGrades.isEmpty then round2 (allGrades.sum / (allGrades.length : ℚ)) else 0
      .ok ⟨a1, a2, mainAvg, allAvg⟩

/-! ## Session state (for the idempotence claim)

The extraction functions write only to stdout (`print`); they read no
module-level mutable state. The session state models the accumulated stdout
stream; the record computed is a function of the inputs alone. -/

/-- The only mutable state the extraction path touches: the stdout stream. -/
structure SessionState where
  printed : List String
deriving Repr, DecidableEq

/-- The fixed start/summary lines `extract_student_info` prints (the
per-column and per-row progress lines between them are functions of the
inputs as well and are elided). -/
def extractTrace (sn grades : DataFrame) : List String :=
  let r := extract_student_info sn grades
  ["학생 정보 추출 시작...", "학생 정보 추출 완료",
    "추출된 교과 정보: " ++ toString r.subjects.length ++ "개",
    "추출된 활동 정보: " ++ toString r.activities.length ++ "개",
    "진로 희망: " ++ r.career]

/-- `extract_student_info` as a state transformer over the session state. -/
def extract_student_info_run (sn grades : DataFrame) (st : SessionState) :
    StudentInfo × SessionState :=
  (extract_student_info sn grades, ⟨st.printed ++ extractTrace sn grades⟩)

/-- `process_csv_file` as a state transformer over the session state (its
only output besides the return value is error logging). -/
def process_csv_file_run (g : Grid) (st : SessionState) :
    Option ProcStudentData × SessionState :=
  (process_csv_file g,
    ⟨st.printed ++ (match process_csv_file_body g with
      | .ok _ => []
      | .error e => ["CSV 파일 처리 중 오류 발생: " ++ toString (repr e)])⟩)

/-! ## Evaluation helpers -/

/-- Evaluate `pyFloat?` through a structurally computed parse. -/
theorem pyFloat?_eq_of_parse {s : String} {d : PyDec} (h : pyParseDec s = some d) :
    pyFloat? s = some d.toRat := by
  rw [pyFloat?, h]; rfl

/-- Parse failure gives `float()` failure. -/
theorem pyFloat?_eq_none {s : String} (h : pyParseDec s = none) : pyFloat? s = none := by
  rw [pyFloat?, h]; rfl

/-- Value of a parsed non-negative integer literal. -/
theorem toRat_nat (n : ℕ) : PyDec.toRat ⟨false, n, 0, 0⟩ = (n : ℚ) := by
  simp [PyDec.toRat]

/-! ## Claim C9 -/

/-- **C9.** In `calculate_semester_average`, a course enters the main-subject
average iff its subject name contains `국어`, `영어` or `수학` as a
substring; `한국사`, `사회`, `과학`, `정보` are not main subjects, while
`심화국어` is. -/
theorem C9_main_subject_membership :
    (∀ grades : List (String × GradeInfo),
      (calculate_semester_average grades).main_subjects =
        (let ms := grades.filter (fun p => isMainKE p.1)
         if ms.isEmpty then 0 else (ms.map (fun p => p.2.rank)).sum / (ms.length : ℚ))) ∧
    isMainKE "한국사" = false ∧ isMainKE "사회" = false ∧
    isMainKE "과학" = false ∧ isMainKE "정보" = false ∧
    isMainKE "심화국어" = true ∧ isMainKE "국어" = true ∧
    isMainKE "영어" = true ∧ isMainKE "수학" = true := by
  refine ⟨fun grades => ?_, by decide, by decide, by decide, by decide,
    by decide, by decide, by decide, by decide⟩
  by_cases h : grades.isEmpty
  · rw [List.isEmpty_iff] at h
    subst h
    simp [calculate_semester_average]
  · by_cases h2 : (grades.filter (fun p => isMainKE p.1)).isEmpty <;>
      simp [calculate_semester_average, h, h2]

/-! ## Claim C3 -/

/-- **C3, counterexample.** `calculate_average_grade` raises
`ZeroDivisionError` on the empty grade set instead of returning zero-valued
averages: the aggregation *does* raise for empty input. -/
theorem C3_cex : calculate_average_grade ⟨[], []⟩ = Except.error PyErr.zeroDivision := by
  rfl

/-- **C3, amended.** `calculate_semester_average` returns 0.0/0.0 for an
empty set without raising, and `extract_student_info` leaves every average
0.0 when the grades input is empty; but `calculate_average_grade`
(grade_calculator.py) divides by the credit total unguarded and raises
`ZeroDivisionError` whenever that total is zero — in particular on empty
input. -/
theorem C3_amended :
    calculate_semester_average [] = ⟨0, 0⟩ ∧
    (∀ sn : DataFrame, (extract_student_info sn ⟨[], []⟩).semester1.average = ⟨0, 0⟩ ∧
      (extract_student_info sn ⟨[], []⟩).semester2.average = ⟨0, 0⟩ ∧
      (extract_student_info sn ⟨[], []⟩).total_average = ⟨0, 0⟩) ∧
    (∀ d : CGData,
      ((d.sem1 ++ d.sem2).filter (fun p => decide (p.1 ≠ "정보"))).map (fun p => p.2.credits) = [] →
      calculate_average_grade d = Except.error PyErr.zeroDivision) := by
  refine ⟨rfl, fun sn => ?_, fun d h => ?_⟩
  · refine ⟨rfl, rfl, ?_⟩
    simp [extract_student_info, extract_recover, extract_student_info_try, extractSemDicts,
      DataFrame.isEmptyDf, semAverageExtract]
  · simp only [calculate_average_grade, h]
    norm_num

/-- **C3, witness** for the amended theorem's hypotheses, at the empty
inputs. -/
theorem C3_witness :
    calculate_semester_average [] = ⟨0, 0⟩ ∧
    (extract_student_info ⟨[], []⟩ ⟨[], []⟩).total_average = ⟨0, 0⟩ ∧
    calculate_average_grade ⟨[], []⟩ = Except.error PyErr.zeroDivision := by
  refine ⟨C3_amended.1, ((C3_amended.2.1 ⟨[], []⟩).2).2, C3_amended.2.2 ⟨[], []⟩ rfl⟩

/-! ## Claim C1 -/

/-- A grades DataFrame with one course: rank grade 2, raw score 90, credit
hours 1 (the column labels are chosen so the substring scan identifies all
five columns). -/
def c1Grades : DataFrame :=
  ⟨["학기", "과목", "원점수", "석차등급", "학점수"],
   [[some "1", some "수학", some "90", some "2", some "1"]]⟩

/-- **C1, counterexample.** For the single included course
(rank 2, credit 1), `Σ(rank_grade × credit) / Σ(credit) = 2`, but
`extract_student_info` computes the semester's weighted average as 90: the
source weights the *raw scores*, not the rank grades. -/
theorem C1_cex :
    (extract_student_info ⟨[], []⟩ c1Grades).semester1.grades =
      [("수학", ⟨90, 2, 1⟩)] ∧
    (extract_student_info ⟨[], []⟩ c1Grades).semester1.average.total = 90 ∧
    ((2 : ℚ) * 1) / 1 = 2 ∧ (90 : ℚ) ≠ 2 := by
  have hc : classifyCols ["학기", "과목", "원점수", "석차등급", "학점수"] =
      ⟨some 0, some 1, some 2, some 3, some 4⟩ := by decide
  have e1 : pyStrip "1" = "1" := by decide
  have e2 : pyStrip "수학" = "수학" := by decide
  have e3 : pyStrip "2" = "2" := by decide
  have e4 : headSlash (pyStrip "90") = "90" := by decide
  have c0 : getCell [some "1", some "수학", some "90", some "2", some "1"] 0 = some "1" := by decide
  have c1 : getCell [some "1", some "수학", some "90", some "2", some "1"] 1 = some "수학" := by decide
  have c2 : getCell [some "1", some "수학", some "90", some "2", some "1"] 2 = some "90" := by decide
  have c3 : getCell [some "1", some "수학", some "90", some "2", some "1"] 3 = some "2" := by decide
  have c4 : getCell [some "1", some "수학", some "90", some "2", some "1"] 4 = some "1" := by decide
  have p1 : pyFloat? "1" = some 1 := by
    rw [pyFloat?_eq_of_parse (show pyParseDec "1" = some ⟨false, 1, 0, 0⟩ by decide), toRat_nat]
    norm_num
  have p2 : pyFloat? "2" = some 2 := by
    rw [pyFloat?_eq_of_parse (show pyParseDec "2" = some ⟨false, 2, 0, 0⟩ by decide), toRat_nat]
    norm_num
  have p90 : pyFloat? "90" = some 90 := by
    rw [pyFloat?_eq_of_parse (show pyParseDec "90" = some ⟨false, 90, 0, 0⟩ by decide), toRat_nat]
    norm_num
  have hpos2 : (0 : ℚ) < 2 := by norm_num
  have hpos1 : (0 : ℚ) < 1 := by norm_num
  norm_num [extract_student_info, extract_recover, extract_student_info_try, extractSemDicts,
    DataFrame.isEmptyDf, c1Grades, hc, extractGradeRow, cellAt?, e1, e2, e3, e4,
    c0, c1, c2, c3, c4, p1, p2, p90, hpos2, hpos1, dictInsert, semAverageExtract,
    mainSubjectsExtract]

/-- **C1, amended.** The per-semester `'total'` average computed by
`extract_student_info` is the *credit-weighted mean of raw scores* over the
stored (rank-positive) courses — `Σ(raw_score × credit) / Σ(credit)` — and
0.0 when the stored set is empty or its credit total is not positive. (The
rank-grade-weighted formula of the claim is what `analyze_grades` uses, over
its whitelisted rows, rounded to two places.) -/
theorem C1_amended (sn g : DataFrame) :
    ((extract_student_info sn g).semester1.average.total =
      (let d := (extract_student_info sn g).semester1.grades
       if d.isEmpty then 0
       else if 0 < (d.map (fun p => p.2.credit)).sum then
         (d.map (fun p => p.2.raw_score * p.2.credit)).sum / (d.map (fun p => p.2.credit)).sum
       else 0)) ∧
    ((extract_student_info sn g).semester2.average.total =
      (let d := (extract_student_info sn g).semester2.grades
       if d.isEmpty then 0
       else if 0 < (d.map (fun p => p.2.credit)).sum then
         (d.map (fun p => p.2.raw_score * p.2.credit)).sum / (d.map (fun p => p.2.credit)).sum
       else 0)) := by
  constructor <;>
  · show (semAverageExtract _).total = _
    by_cases h : ((extractSemDicts g).d1).isEmpty <;>
    by_cases h2 : ((extractSemDicts g).d2).isEmpty <;>
    simp [semAverageExtract, extract_student_info, extract_recover, extract_student_info_try,
      h, h2]

/-! ## Claim C2 -/

/-- Members of a dict after an insert: an old entry or the inserted one. -/
theorem mem_dictInsert {α : Type} {d : List (String × α)} {k : String} {v : α}
    {p : String × α} (h : p ∈ dictInsert d k v) : p ∈ d ∨ p = (k, v) := by
  induction d with
  | nil =>
    simp [dictInsert] at h
    exact Or.inr h
  | cons hd t ih =>
    rw [dictInsert] at h
    by_cases hk : hd.1 = k
    · simp [hk] at h
      rcases h with h | h
      · exact Or.inr (by simp [h, ← hk])
      · exact Or.inl (List.mem_cons_of_mem _ h)
    · simp [hk] at h
      rcases h with h | h
      · exact Or.inl (by simp [h])
      · rcases ih h with h' | h'
        · exact Or.inl (List.mem_cons_of_mem _ h')
        · exact Or.inr h'

/-- One step of the grades loop of `extract_student_info` preserves
positivity of every stored rank grade (the `if grade_value > 0` guard of
line 223). -/
theorem extractGradeRow_pos (gc : GradeColIdx) (acc : SemDicts) (r : Row)
    (h1 : ∀ p ∈ acc.d1, 0 < p.2.rank) (h2 : ∀ p ∈ acc.d2, 0 < p.2.rank) :
    (∀ p ∈ (extractGradeRow gc acc r).d1, 0 < p.2.rank) ∧
    (∀ p ∈ (extractGradeRow gc acc r).d2, 0 < p.2.rank) := by
  unfold extractGradeRow
  split
  · split
    · dsimp only
      split_ifs with hsem hpos hone
      · refine ⟨?_, h2⟩
        intro p hp
        rcases mem_dictInsert hp with h | h
        · exact h1 p h
        · rw [h]; exact hpos
      · refine ⟨h1, ?_⟩
        intro p hp
        rcases mem_dictInsert hp with h | h
        · exact h2 p h
        · rw [h]; exact hpos
      · exact ⟨h1, h2⟩
      · exact ⟨h1, h2⟩
    · exact ⟨h1, h2⟩
  · exact ⟨h1, h2⟩

/-- The whole grades loop preserves rank positivity. -/
theorem foldl_extractGradeRow_pos (gc : GradeColIdx) (rows : List Row) (acc : SemDicts)
    (h1 : ∀ p ∈ acc.d1, 0 < p.2.rank) (h2 : ∀ p ∈ acc.d2, 0 < p.2.rank) :
    (∀ p ∈ (rows.foldl (extractGradeRow gc) acc).d1, 0 < p.2.rank) ∧
    (∀ p ∈ (rows.foldl (extractGradeRow gc) acc).d2, 0 < p.2.rank) := by
  induction rows generalizing acc with
  | nil => exact ⟨h1, h2⟩
  | cons r t ih =>
    rw [List.foldl_cons]
    obtain ⟨g1, g2⟩ := extractGradeRow_pos gc acc r h1 h2
    exact ih _ g1 g2

/-- **C2, amended.** In `extract_student_info`, a grade row is stored — and
can therefore influence an average — only with a positive parsed rank grade;
rows whose rank is missing, unparsable, or zero never enter the per-semester
grade dicts. (In the `process_csv_file` path, rows with a *missing* rank or
credit are skipped, but rows with rank 0 are stored and do enter
`calculate_semester_average`'s means — see the counterexample.) -/
theorem C2_amended (sn g : DataFrame) :
    (∀ p ∈ (extract_student_info sn g).semester1.grades, 0 < p.2.rank) ∧
    (∀ p ∈ (extract_student_info sn g).semester2.grades, 0 < p.2.rank) := by
  show (∀ p ∈ (extractSemDicts g).d1, 0 < p.2.rank) ∧ (∀ p ∈ (extractSemDicts g).d2, 0 < p.2.rank)
  rw [extractSemDicts]
  split_ifs with h
  · simp
  · exact foldl_extractGradeRow_pos _ _ _ (by simp) (by simp)

/-- **C2, witness** for the amended invariant, at the one-course input of
`c1Grades`: the stored course is a member and its rank is positive. -/
theorem C2_witness :
    ("수학", (⟨90, 2, 1⟩ : GradeInfo)) ∈ (extract_student_info ⟨[], []⟩ c1Grades).semester1.grades ∧
    (0 : ℚ) < (("수학", (⟨90, 2, 1⟩ : GradeInfo)) : String × GradeInfo).2.rank := by
  have hc : classifyCols ["학기", "과목", "원점수", "석차등급", "학점수"] =
      ⟨some 0, some 1, some 2, some 3, some 4⟩ := by decide
  have e1 : pyStrip "1" = "1" := by decide
  have e2 : pyStrip "수학" = "수학" := by decide
  have e3 : pyStrip "2" = "2" := by decide
  have e4 : headSlash (pyStrip "90") = "90" := by decide
  have c0 : getCell [some "1", some "수학", some "90", some "2", some "1"] 0 = some "1" := by decide
  have c1 : getCell [some "1", some "수학", some "90", some "2", some "1"] 1 = some "수학" := by decide
  have c2 : getCell [some "1", some "수학", some "90", some "2", some "1"] 2 = some "90" := by decide
  have c3 : getCell [some "1", some "수학", some "90", some "2", some "1"] 3 = some "2" := by decide
  have c4 : getCell [some "1", some "수학", some "90", some "2", some "1"] 4 = some "1" := by decide
  have p1 : pyFloat? "1" = some 1 := by
    rw [pyFloat?_eq_of_parse (show pyParseDec "1" = some ⟨false, 1, 0, 0⟩ by decide), toRat_nat]
    norm_num
  have p2 : pyFloat? "2" = some 2 := by
    rw [pyFloat?_eq_of_parse (show pyParseDec "2" = some ⟨false, 2, 0, 0⟩ by decide), toRat_nat]
    norm_num
  have p90 : pyFloat? "90" = some 90 := by
    rw [pyFloat?_eq_of_parse (show pyParseDec "90" = some ⟨false, 90, 0, 0⟩ by decide), toRat_nat]
    norm_num
  have hmem : ("수학", (⟨90, 2, 1⟩ : GradeInfo)) ∈
      (extract_student_info ⟨[], []⟩ c1Grades).semester1.grades := by
    norm_num [extract_student_info, extract_recover, extract_student_info_try, extractSemDicts,
      DataFrame.isEmptyDf, c1Grades, hc, extractGradeRow, cellAt?, e1, e2, e3, e4,
      c0, c1, c2, c3, c4, p1, p2, p90, dictInsert]
  exact ⟨hmem, (C2_amended ⟨[], []⟩ c1Grades).1 _ hmem⟩

/-- A `process_csv_file` grid whose grade block (rows 3–4) has one course
with rank 2 and one with rank 0 (columns: 학기, 과목, 학점수,
원점수/과목평균, 성취도, 석차등급). -/
def c2GridA : Grid :=
  [[some "학년", some "반", some "번호", some "이름", some "담임", some "비고"],
   [none, none, none, none, none, none],
   [none, none, none, none, none, none],
   [some "1", some "수학", some "1", some "90/70", some "A", some "2"],
   [some "1", some "영어", some "1", some "80/70", some "B", some "0"]]

/-- The same grid without the rank-0 row. -/
def c2GridB : Grid :=
  [[some "학년", some "반", some "번호", some "이름", some "담임", some "비고"],
   [none, none, none, none, none, none],
   [none, none, none, none, none, none],
   [some "1", some "수학", some "1", some "90/70", some "A", some "2"]]

/-- **C2, counterexample.** In the `process_csv_file` path a rank-0 row *is*
stored and *does* contribute: adding the rank-0 영어 row changes the
semester-1 simple average from 2 to 1. -/
theorem C2_cex :
    (process_csv_file c2GridA).map (fun d => d.semester1) =
      some [("수학", ⟨90, 2, 1⟩), ("영어", ⟨80, 0, 1⟩)] ∧
    (process_csv_file c2GridA).map (fun d => d.average1.total) = some 1 ∧
    (process_csv_file c2GridB).map (fun d => d.average1.total) = some 2 ∧
    (1 : ℚ) ≠ 2 := by
  have p0 : pyFloat? "0" = some 0 := by
    rw [pyFloat?_eq_of_parse (show pyParseDec "0" = some ⟨false, 0, 0, 0⟩ by decide), toRat_nat]
    norm_num
  have p1 : pyFloat? "1" = some 1 := by
    rw [pyFloat?_eq_of_parse (show pyParseDec "1" = some ⟨false, 1, 0, 0⟩ by decide), toRat_nat]
    norm_num
  have p2 : pyFloat? "2" = some 2 := by
    rw [pyFloat?_eq_of_parse (show pyParseDec "2" = some ⟨false, 2, 0, 0⟩ by decide), toRat_nat]
    norm_num
  have p90 : pyFloat? (pyStrip (headSlash "90/70")) = some 90 := by
    rw [show pyStrip (headSlash "90/70") = "90" by decide]
    rw [pyFloat?_eq_of_parse (show pyParseDec "90" = some ⟨false, 90, 0, 0⟩ by decide), toRat_nat]
    norm_num
  have p80 : pyFloat? (pyStrip (headSlash "80/70")) = some 80 := by
    rw [show pyStrip (headSlash "80/70") = "80" by decide]
    rw [pyFloat?_eq_of_parse (show pyParseDec "80" = some ⟨false, 80, 0, 0⟩ by decide), toRat_nat]
    norm_num
  have s1 : pyStrip (pyStr (some "1")) = "1" := by decide
  have ssu : pyStrip (pyStr (some "수학")) = "수학" := by decide
  have sye : pyStrip (pyStr (some "영어")) = "영어" := by decide
  have hne : ("수학" : String) ≠ "영어" := by decide
  have m1 : isMainKE "수학" = true := by decide
  have m2 : isMainKE "영어" = true := by decide
  have hrem : procRemarks
      [some "학년", some "반", some "번호", some "이름", some "담임", some "비고"]
      [none, none, none, none, none, none] = ⟨[], [], "미정"⟩ := by decide
  refine ⟨?_, ?_, ?_, by norm_num⟩ <;>
  · norm_num [process_csv_file, process_csv_file_body, c2GridA, c2GridB, normRow, getCell,
      procGradeRow, List.range_succ, s1, ssu, sye, hne, m1, m2, hrem,
      p0, p1, p2, p90, p80, dictInsert, calculate_semester_average]

/-! ## Claim C4 -/

/-- The semester-fallback rule of utils.py lines 263–283 as a standalone
function: mean of the two semester averages when both are positive, else
whichever is positive, else 0. -/
def totalRule (a b : ℚ) : ℚ :=
  if 0 < a ∧ 0 < b then (a + b) / 2
  else if 0 < a then a
  else if 0 < b then b
  else 0

/-- **C4, amended.** `extract_student_info`'s `'total'` averages follow the
semester-fallback rule `totalRule` (mean of the two semester averages when
both are positive, the positive one when exactly one is, 0 otherwise);
`analyze_grades`'s `'전체'` block instead pools the individual counted
grades of both semesters and takes their flat mean — see the
counterexample. -/
theorem C4_amended (sn g : DataFrame) :
    (extract_student_info sn g).total_average.total =
      totalRule (extract_student_info sn g).semester1.average.total
        (extract_student_info sn g).semester2.average.total ∧
    (extract_student_info sn g).total_average.main_subjects =
      totalRule (extract_student_info sn g).semester1.average.main_subjects
        (extract_student_info sn g).semester2.average.main_subjects :=
  ⟨rfl, rfl⟩

/-- Three graded rows for `analyze_grades`: semester 1 has one course of
rank 1; semester 2 has two courses of rank 3. -/
def c4Rows : List AgRow :=
  [⟨.num 1, .str "수학", .num 1, .num 1⟩,
   ⟨.num 2, .str "국어", .num 3, .num 1⟩,
   ⟨.num 2, .str "영어", .num 3, .num 1⟩]

/-- **C4, counterexample.** On `c4Rows` both semester averages are non-zero
(1 and 3), so the claim says the total equals their mean, 2; but
`analyze_grades` computes the flat pooled mean `(1+3+3)/3`, rounded to
2.33. -/
theorem C4_cex :
    analyze_grades c4Rows =
      Except.ok ⟨⟨[("수학", (1, 1))], 1, 1⟩, ⟨[("국어", (3, 1)), ("영어", (3, 1))], 3, 3⟩,
        233 / 100, 233 / 100⟩ ∧
    ((1 : ℚ) + 3) / 2 = 2 ∧ (233 : ℚ) / 100 ≠ 2 := by
  have r1 : round2 1 = 1 := by
    rw [round2, show ((1 : ℚ) * 100 + 1 / 2) = 201 / 2 by ring,
      show (⌊(201 / 2 : ℚ)⌋ : ℤ) = 100 from Int.floor_eq_iff.mpr (by norm_num)]
    norm_num
  have r3 : round2 3 = 3 := by
    rw [round2, show ((3 : ℚ) * 100 + 1 / 2) = 601 / 2 by ring,
      show (⌊(601 / 2 : ℚ)⌋ : ℤ) = 300 from Int.floor_eq_iff.mpr (by norm_num)]
    norm_num
  have r73 : round2 (7 / 3) = 233 / 100 := by
    rw [round2, show ((7 / 3 : ℚ) * 100 + 1 / 2) = 1403 / 6 by ring,
      show (⌊(1403 / 6 : ℚ)⌋ : ℤ) = 233 from Int.floor_eq_iff.mpr (by norm_num)]
    norm_num
  have i1 : ("수학" : String) ∈ agAllSubjects := by decide
  have i2 : ("국어" : String) ∈ agAllSubjects := by decide
  have i3 : ("영어" : String) ∈ agAllSubjects := by decide
  have hne : ("국어" : String) ≠ "영어" := by decide
  have b1 : decide (("수학" : String) ∈ agMainSubjects) = true := by decide
  have b2 : decide (("국어" : String) ∈ agMainSubjects) = true := by decide
  have b3 : decide (("영어" : String) ∈ agMainSubjects) = true := by decide
  have b4 : decide (("수학" : String) ∈ agAllSubjects) = true := by decide
  have b5 : decide (("국어" : String) ∈ agAllSubjects) = true := by decide
  have b6 : decide (("영어" : String) ∈ agAllSubjects) = true := by decide
  refine ⟨?_, by norm_num, by norm_num⟩
  norm_num [analyze_grades, c4Rows, agSemester, agFold, agStep, PyScalar.eqNum,
    PyScalar.notna, PyScalar.toFloat?, dictInsert,
    i1, i2, i3, hne, b1, b2, b3, b4, b5, b6, r1, r3, r73]

/-! ## Claim C6 -/

/-- **C6, counterexample.** On wholly empty input the extractor does *not*
fail with a distinguished typed error: `process_csv_file` swallows the
internal `EmptyDataError` and returns the plain empty dict `{}` (no error
reaches the caller), and `preprocess_csv` raises the untyped catch-all
`Exception` with a message prefix — no `MalformedInputError` type exists
anywhere in the code. -/
theorem C6_cex :
    process_csv_file [] = none ∧
    process_csv_file_body [] = Except.error PyErr.emptyData ∧
    preprocess_csv [] =
      Except.error (PyErr.generic ("CSV 파일 전처리 중 오류 발생: " ++
        "No columns to parse from file")) :=
  ⟨rfl, rfl, rfl⟩

/-- **C6, amended.** On empty or unparseable input, `preprocess_csv` raises
a generic `Exception` whose message merely carries the prefix
`CSV 파일 전처리 중 오류 발생`, while `process_csv_file` catches every
internal error and returns the empty dict `{}`; callers can tell failure
from valid output only by that shape, not by a distinguished error type. -/
theorem C6_amended :
    (∀ (g : Grid) (e : PyErr), process_csv_file_body g = Except.error e →
      process_csv_file g = none) ∧
    preprocess_csv [] =
      Except.error (PyErr.generic ("CSV 파일 전처리 중 오류 발생: " ++
        "No columns to parse from file")) ∧
    process_csv_file [[some "x"]] = none := by
  refine ⟨fun g e h => ?_, rfl, rfl⟩
  simp [process_csv_file, h]

/-- **C6, witness**: the swallow rule of the amended theorem applied at the
empty grid, whose body error is `EmptyDataError`. -/
theorem C6_witness :
    process_csv_file [] = none ∧
    preprocess_csv [] =
      Except.error (PyErr.generic ("CSV 파일 전처리 중 오류 발생: " ++
        "No columns to parse from file")) :=
  ⟨C6_amended.1 [] PyErr.emptyData rfl, C6_amended.2.1⟩

/-! ## Claim C7 -/

/-- Modelled from the spec's words for the `extract_student_info` path:
split the combined score/average cell on `/`, parse the first token, and
leave 0 when the cell is missing or the parse fails. -/
def specRawOr0 (c : Cell) : ℚ :=
  match c with
  | none => 0
  | some s => (pyFloat? (headSlash (pyStrip s))).getD 0

/-- Modelled from the spec's words for the `process_csv_file` path: split on
`/`, parse the first token, and approximate from the rank grade
(`100 - (rank - 1) * 10`) when the parse fails; 0 when the cell is
missing. -/
def specRawFallback (c : Cell) (rank : ℚ) : ℚ :=
  match c with
  | none => 0
  | some s => (pyFloat? (pyStrip (headSlash s))).getD (100 - (rank - 1) * 10)

/-- A one-course grades DataFrame whose combined score/average cell is the
parameter. -/
def c7Df (c : Cell) : DataFrame :=
  ⟨["학기", "과목", "원점수", "석차등급", "학점수"],
   [[some "1", some "물리학Ⅰ", c, some "2", some "3"]]⟩

/-- **C7.** For every content of the combined score/average cell, the stored
raw score is the parsed first `/`-token, with the fallbacks the claim
states: 0 in `extract_student_info`, and `100 - (rank-1)·10` (rank 2 here)
in `process_csv_file`'s row parser. -/
theorem C7_raw_score (c : Cell) :
    (extract_student_info ⟨[], []⟩ (c7Df c)).semester1.grades =
      [("물리학Ⅰ", ⟨specRawOr0 c, 2, 3⟩)] ∧
    (procGradeRow ⟨[], []⟩ [some "1", some "물리학Ⅰ", some "3", c, some "A", some "2"]).d1 =
      [("물리학Ⅰ", ⟨specRawFallback c 2, 2, 3⟩)] := by
  have hc : classifyCols ["학기", "과목", "원점수", "석차등급", "학점수"] =
      ⟨some 0, some 1, some 2, some 3, some 4⟩ := by decide
  have e1 : pyStrip "1" = "1" := by decide
  have e2 : pyStrip "물리학Ⅰ" = "물리학Ⅰ" := by decide
  have e3 : pyStrip "2" = "2" := by decide
  have e4 : pyStrip "3" = "3" := by decide
  have s1 : pyStrip (pyStr (some "1")) = "1" := by decide
  have s2 : pyStrip (pyStr (some "물리학Ⅰ")) = "물리학Ⅰ" := by decide
  have p2 : pyFloat? "2" = some 2 := by
    rw [pyFloat?_eq_of_parse (show pyParseDec "2" = some ⟨false, 2, 0, 0⟩ by decide), toRat_nat]
    norm_num
  have p3 : pyFloat? "3" = some 3 := by
    rw [pyFloat?_eq_of_parse (show pyParseDec "3" = some ⟨false, 3, 0, 0⟩ by decide), toRat_nat]
    norm_num
  have hpos2 : (0 : ℚ) < 2 := by norm_num
  cases c with
  | none =>
    constructor
    · norm_num [extract_student_info, extract_recover, extract_student_info_try, extractSemDicts,
        DataFrame.isEmptyDf, c7Df, hc, extractGradeRow, cellAt?, getCell,
        e1, e2, e3, e4, p2, p3, hpos2, dictInsert, specRawOr0]
    · norm_num [procGradeRow, getCell, s1, s2, p2, p3, dictInsert, specRawFallback]
  | some s =>
    constructor
    · norm_num [extract_student_info, extract_recover, extract_student_info_try, extractSemDicts,
        DataFrame.isEmptyDf, c7Df, hc, extractGradeRow, cellAt?, getCell,
        e1, e2, e3, e4, p2, p3, hpos2, dictInsert, specRawOr0]
    · norm_num [procGradeRow, getCell, s1, s2, p2, p3, dictInsert, specRawFallback]
      cases pyFloat? (pyStrip (headSlash s)) <;> rfl

/-- **C7, witness**: a parseable cell `92/78(10.1)` stores 92; an
unparseable cell `abc/70` stores 0 on the `extract_student_info` path and
the rank-2 approximation 90 on the `process_csv_file` path. -/
theorem C7_witness :
    (extract_student_info ⟨[], []⟩ (c7Df (some "92/78(10.1)"))).semester1.grades =
      [("물리학Ⅰ", ⟨92, 2, 3⟩)] ∧
    (extract_student_info ⟨[], []⟩ (c7Df (some "abc/70"))).semester1.grades =
      [("물리학Ⅰ", ⟨0, 2, 3⟩)] ∧
    (procGradeRow ⟨[], []⟩
        [some "1", some "물리학Ⅰ", some "3", some "abc/70", some "A", some "2"]).d1 =
      [("물리학Ⅰ", ⟨90, 2, 3⟩)] := by
  have v1 : specRawOr0 (some "92/78(10.1)") = 92 := by
    simp only [specRawOr0, show headSlash (pyStrip "92/78(10.1)") = "92" by decide,
      pyFloat?_eq_of_parse (show pyParseDec "92" = some ⟨false, 92, 0, 0⟩ by decide), toRat_nat]
    norm_num
  have v2 : specRawOr0 (some "abc/70") = 0 := by
    simp only [specRawOr0, show headSlash (pyStrip "abc/70") = "abc" by decide,
      pyFloat?_eq_none (show pyParseDec "abc" = none by decide)]
    rfl
  have v3 : specRawFallback (some "abc/70") 2 = 90 := by
    simp only [specRawFallback, show pyStrip (headSlash "abc/70") = "abc" by decide,
      pyFloat?_eq_none (show pyParseDec "abc" = none by decide)]
    norm_num
  refine ⟨?_, ?_, ?_⟩
  · rw [(C7_raw_score (some "92/78(10.1)")).1, v1]
  · rw [(C7_raw_score (some "abc/70")).1, v2]
  · rw [(C7_raw_score (some "abc/70")).2, v3]

/-! ## Claim C8 -/

/-- **C8.** Extraction is idempotent and reads no hidden state: running the
extractor a second time — in the session state the first run produced —
yields the identical record, and the record is independent of the incoming
session state altogether; likewise for `process_csv_file`. -/
theorem C8_idempotent (sn g : DataFrame) (grid : Grid) (st : SessionState) :
    ((extract_student_info_run sn g ((extract_student_info_run sn g st).2)).1 =
      (extract_student_info_run sn g st).1) ∧
    (∀ st₁ st₂ : SessionState,
      (extract_student_info_run sn g st₁).1 = (extract_student_info_run sn g st₂).1) ∧
    ((process_csv_file_run grid ((process_csv_file_run grid st).2)).1 =
      (process_csv_file_run grid st).1) ∧
    (∀ st₁ st₂ : SessionState,
      (process_csv_file_run grid st₁).1 = (process_csv_file_run grid st₂).1) :=
  ⟨rfl, fun _ _ => rfl, rfl, fun _ _ => rfl⟩

/-! ## Claim C10 -/

/-- **C10.** `extract_student_info` is total: for every pair of input
DataFrames it returns the `try` body's record (no exception propagates —
in the grid model the body cannot raise, every fallible source operation
being guarded), and the `except` handler maps *any* internal error to the
fully-structured default record: empty remark maps, empty grades, all
averages 0.0, career `"미정"`. -/
theorem C10_total_default (sn g : DataFrame) :
    extract_student_info sn g = extract_student_info_try sn g ∧
    (∀ e : PyErr, extract_recover (Except.error e) = defaultStudentInfo) ∧
    defaultStudentInfo.subjects = [] ∧
    defaultStudentInfo.activities = [] ∧
    defaultStudentInfo.career = "미정" ∧
    defaultStudentInfo.semester1 = ⟨[], ⟨0, 0⟩⟩ ∧
    defaultStudentInfo.semester2 = ⟨[], ⟨0, 0⟩⟩ ∧
    defaultStudentInfo.total_average = ⟨0, 0⟩ :=
  ⟨rfl, fun _ => rfl, rfl, rfl, rfl, rfl, rfl, rfl⟩

/-! ## Claim C5 -/

/-- Looking up the freshly inserted key. -/
theorem dictFind?_insert_self {α : Type} (d : List (String × α)) (k : String) (v : α) :
    dictFind? (dictInsert d k v) k = some v := by
  induction d with
  | nil => simp [dictInsert, dictFind?]
  | cons hd t ih =>
    obtain ⟨k2, v2⟩ := hd
    rw [dictInsert]
    by_cases h : k2 = k
    · simp [dictFind?, h]
    · simp [dictFind?, h, ih]

/-- Inserting a different key does not change a lookup. -/
theorem dictFind?_insert_ne {α : Type} (d : List (String × α)) {k' k : String} (v : α)
    (h : k' ≠ k) : dictFind? (dictInsert d k' v) k = dictFind? d k := by
  induction d with
  | nil => simp [dictInsert, dictFind?, h]
  | cons hd t ih =>
    obtain ⟨k2, v2⟩ := hd
    rw [dictInsert]
    by_cases h2 : k2 = k'
    · rw [if_pos h2, dictFind?, dictFind?]
      have h4 : k2 ≠ k := by rw [h2]; exact h
      rw [if_neg h4, if_neg h4]
    · rw [if_neg h2, dictFind?, dictFind?]
      by_cases h3 : k2 = k
      · rw [if_pos h3, if_pos h3]
      · rw [if_neg h3, if_neg h3, ih]

/-- A column with a first non-missing value has some non-missing value. -/
theorem firstSome_any {l : List Cell} {v : String} (h : firstSome l = some v) :
    l.any Option.isSome = true := by
  induction l with
  | nil => simp [firstSome] at h
  | cons c t ih =>
    cases c with
    | some s => simp
    | none =>
      have h' : firstSome t = some v := by simpa [firstSome] using h
      simpa using ih h'

/-- A found label is a member of the label list. -/
theorem idxOf?_some_mem {label : String} {cols : List String} {j : ℕ}
    (h : idxOf? label cols = some j) : label ∈ cols := by
  induction cols generalizing j with
  | nil => simp [idxOf?] at h
  | cons c t ih =>
    rw [idxOf?] at h
    by_cases hc : c = label
    · simp [hc]
    · rw [if_neg hc] at h
      cases h2 : idxOf? label t with
      | none => rw [h2] at h; simp at h
      | some j2 => exact List.mem_cons_of_mem _ (ih h2)

/-- A column with a first value pins down the shape of the DataFrame: the
label exists and there is at least one row. -/
theorem colCells_firstSome_shape {df : DataFrame} {s v : String}
    (h : firstSome (colCells df s) = some v) : s ∈ df.cols ∧ df.rows ≠ [] := by
  rw [colCells] at h
  cases hj : colIdx? df s with
  | none => rw [hj] at h; simp [firstSome] at h
  | some j =>
    rw [hj] at h
    refine ⟨idxOf?_some_mem hj, ?_⟩
    intro hre
    rw [hre] at h
    simp [firstSome] at h

/-- A remarks-loop step never disturbs an already-recorded subject remark
whose value is the column's own first value. -/
theorem remarksStep_subjects_keep (df : DataFrame) {s v : String}
    (hv : firstSome (colCells df s) = some v)
    (acc : RemarksAcc) (col : String)
    (h : dictFind? acc.subjects s = some v) :
    dictFind? (remarksStep df acc col).subjects s = some v := by
  rw [remarksStep]
  dsimp only
  split_ifs with h1 h2 h3 h4 h5 h6
  · by_cases hcs : col = s
    · subst hcs
      rw [hv]
      exact dictFind?_insert_self ..
    · rw [dictFind?_insert_ne _ _ hcs]
      exact h
  · exact h
  · exact h
  · exact h
  · exact h
  · exact h
  · exact h

/-- Processing the subject column itself records its remark. -/
theorem remarksStep_subjects_est (df : DataFrame) {s v : String}
    (hs : s ∈ subjectCols) (hv : firstSome (colCells df s) = some v) (hne : v ≠ "")
    (acc : RemarksAcc) :
    dictFind? (remarksStep df acc s).subjects s = some v := by
  rw [remarksStep]
  dsimp only
  rw [if_pos ⟨hs, firstSome_any hv⟩, hv]
  rw [if_pos (by simpa using hne)]
  exact dictFind?_insert_self ..

/-- The remarks loop preserves a recorded subject remark. -/
theorem foldl_remarks_subjects_keep (df : DataFrame) {s v : String}
    (hv : firstSome (colCells df s) = some v) :
    ∀ (cols : List String) (acc : RemarksAcc), dictFind? acc.subjects s = some v →
      dictFind? ((cols.foldl (remarksStep df) acc)).subjects s = some v := by
  intro cols
  induction cols with
  | nil => exact fun acc h => h
  | cons c t ih =>
    intro acc h
    rw [List.foldl_cons]
    exact ih _ (remarksStep_subjects_keep df hv acc c h)

/-- The remarks loop records every subject column's remark. -/
theorem foldl_remarks_subjects_est (df : DataFrame) {s v : String}
    (hs : s ∈ subjectCols) (hv : firstSome (colCells df s) = some v) (hne : v ≠ "") :
    ∀ (cols : List String) (acc : RemarksAcc), s ∈ cols →
      dictFind? ((cols.foldl (remarksStep df) acc)).subjects s = some v := by
  intro cols
  induction cols with
  | nil => intro acc h; simp at h
  | cons c t ih =>
    intro acc hmem
    rw [List.foldl_cons]
    by_cases hcs : c = s
    · subst hcs
      exact foldl_remarks_subjects_keep df hv t _ (remarksStep_subjects_est df hs hv hne acc)
    · rcases List.mem_cons.mp hmem with h | h
      · exact absurd h.symm hcs
      · exact ih _ h

/-- `extract_student_info` records the remark of every subject column that
has a non-missing, non-empty first value. -/
theorem extractRemarks_subjects (df : DataFrame) {s v : String}
    (hs : s ∈ subjectCols) (hv : firstSome (colCells df s) = some v) (hne : v ≠ "") :
    dictFind? (extractRemarks df).subjects s = some v := by
  obtain ⟨hcols, hrows⟩ := colCells_firstSome_shape hv
  rw [extractRemarks, if_neg (by simp [DataFrame.isEmptyDf, hrows, List.ne_nil_of_mem hcols])]
  exact foldl_remarks_subjects_est df hs hv hne df.cols ⟨[], [], "미정"⟩ hcols

/-- A remarks-loop step never disturbs a recorded activity remark whose
value is the column's own first value. -/
theorem remarksStep_activities_keep (df : DataFrame) {a v : String}
    (hv : firstSome (colCells df a) = some v)
    (acc : RemarksAcc) (col : String)
    (h : dictFind? acc.activities a = some v) :
    dictFind? (remarksStep df acc col).activities a = some v := by
  rw [remarksStep]
  dsimp only
  split_ifs with h1 h2 h3 h4 h5 h6
  · exact h
  · exact h
  · by_cases hca : col = a
    · subst hca
      rw [hv]
      exact dictFind?_insert_self ..
    · rw [dictFind?_insert_ne _ _ hca]
      exact h
  · exact h
  · exact h
  · exact h
  · exact h

/-- Processing an activity column itself records its remark. -/
theorem remarksStep_activities_est (df : DataFrame) {a v : String}
    (ha1 : a ∉ subjectCols)
    (ha2 : a ∈ activityCols ∨ activityCols.any (fun act => strHasSub a act) = true)
    (hv : firstSome (colCells df a) = some v) (hne : v ≠ "")
    (acc : RemarksAcc) :
    dictFind? (remarksStep df acc a).activities a = some v := by
  rw [remarksStep]
  dsimp only
  rw [if_neg (fun hc => ha1 hc.1), if_pos ha2, hv]
  rw [if_pos (by simpa using hne)]
  exact dictFind?_insert_self ..

/-- The remarks loop preserves a recorded activity remark. -/
theorem foldl_remarks_activities_keep (df : DataFrame) {a v : String}
    (hv : firstSome (colCells df a) = some v) :
    ∀ (cols : List String) (acc : RemarksAcc), dictFind? acc.activities a = some v →
      dictFind? ((cols.foldl (remarksStep df) acc)).activities a = some v := by
  intro cols
  induction cols with
  | nil => exact fun acc h => h
  | cons c t ih =>
    intro acc h
    rw [List.foldl_cons]
    exact ih _ (remarksStep_activities_keep df hv acc c h)

/-- The remarks loop records every activity column's remark. -/
theorem foldl_remarks_activities_est (df : DataFrame) {a v : String}
    (ha1 : a ∉ subjectCols)
    (ha2 : a ∈ activityCols ∨ activityCols.any (fun act => strHasSub a act) = true)
    (hv : firstSome (colCells df a) = some v) (hne : v ≠ "") :
    ∀ (cols : List String) (acc : RemarksAcc), a ∈ cols →
      dictFind? ((cols.foldl (remarksStep df) acc)).activities a = some v := by
  intro cols
  induction cols with
  | nil => intro acc h; simp at h
  | cons c t ih =>
    intro acc hmem
    rw [List.foldl_cons]
    by_cases hca : c = a
    · subst hca
      exact foldl_remarks_activities_keep df hv t _
        (remarksStep_activities_est df ha1 ha2 hv hne acc)
    · rcases List.mem_cons.mp hmem with h | h
      · exact absurd h.symm hca
      · exact ih _ h

/-- `extract_student_info` records the remark of every activity column that
has a non-missing, non-empty first value. -/
theorem extractRemarks_activities (df : DataFrame) {a v : String}
    (ha1 : a ∉ subjectCols)
    (ha2 : a ∈ activityCols ∨ activityCols.any (fun act => strHasSub a act) = true)
    (hv : firstSome (colCells df a) = some v) (hne : v ≠ "") :
    dictFind? (extractRemarks df).activities a = some v := by
  obtain ⟨hcols, hrows⟩ := colCells_firstSome_shape hv
  rw [extractRemarks, if_neg (by simp [DataFrame.isEmptyDf, hrows, List.ne_nil_of_mem hcols])]
  exact foldl_remarks_activities_est df ha1 ha2 hv hne df.cols ⟨[], [], "미정"⟩ hcols

/-- No row starting with a `'학 기'` cell means no grade section is found. -/
theorem gradeSectionIdx?_eq_none {rows : Grid}
    (h : ∀ r ∈ rows, getCell r 0 ≠ some "학 기") : gradeSectionIdx? rows = none := by
  induction rows with
  | nil => rfl
  | cons r t ih =>
    rw [gradeSectionIdx?, if_neg (h r (by simp))]
    rw [ih (fun r' hr' => h r' (by simp [hr']))]
    rfl

/-- A cell produced by `getCell` with a value is a member of the row. -/
theorem getCell_some_mem {r : Row} {j : ℕ} {s : String}
    (h : getCell r j = some s) : (some s : Cell) ∈ r := by
  rw [getCell] at h
  cases h2 : r.get? j with
  | none => rw [h2] at h; simp at h
  | some c =>
    rw [h2] at h
    simp at h
    rw [h] at h2
    exact List.get?_mem h2

/-- On a grid with at least one non-blank data row and no `'학 기'` cell
anywhere, `preprocess_csv` succeeds and returns an *empty* grades block. -/
theorem preprocess_no_label (hdr : Row) (body : Grid)
    (hrow : ∃ r ∈ body, rowAllNull hdr.length r = false)
    (hnolabel : ∀ r ∈ body, ∀ c ∈ r, c ≠ some "학 기") :
    ∃ main : DataFrame,
      preprocess_csv (hdr :: body) = Except.ok (main, (⟨[], []⟩ : DataFrame)) := by
  obtain ⟨r0, hr0, hall0⟩ := hrow
  have hdz : r0 ∈ dropEmptyRows hdr.length body :=
    List.mem_filter.mpr ⟨hr0, by simp [hall0]⟩
  have hdzne : dropEmptyRows hdr.length body ≠ [] := List.ne_nil_of_mem hdz
  -- destructure the surviving rows
  cases hdzeq : dropEmptyRows hdr.length body with
  | nil => exact absurd hdzeq hdzne
  | cons r1 dtail =>
    -- r1 survives the row dropna, so it has a value in a kept column
    have hr1mem : r1 ∈ dropEmptyRows hdr.length body := by rw [hdzeq]; simp
    have hr1body : r1 ∈ body := (List.mem_filter.mp hr1mem).1
    have hr1nn : rowAllNull hdr.length r1 = false := by
      have := (List.mem_filter.mp hr1mem).2
      simpa using this
    obtain ⟨j, hjw, hjs⟩ : ∃ j ∈ List.range hdr.length, (getCell r1 j).isSome = true := by
      have : ¬ ((normRow hdr.length r1).all Option.isNone = true) := by
        rw [show (normRow hdr.length r1).all Option.isNone = rowAllNull hdr.length r1 from rfl]
        simp [hr1nn]
      rw [List.all_eq_true] at this
      push_neg at this
      obtain ⟨c, hc, hcn⟩ := this
      rw [normRow] at hc
      obtain ⟨j, hj, hje⟩ := List.mem_map.mp hc
      refine ⟨j, hj, ?_⟩
      rw [hje]
      cases c with
      | none => simp at hcn
      | some s => rfl
    have hjkeep : j ∈ keptCols hdr.length (dropEmptyRows hdr.length body) := by
      rw [keptCols]
      refine List.mem_filter.mpr ⟨hjw, ?_⟩
      rw [List.any_eq_true]
      exact ⟨r1, hr1mem, hjs⟩
    -- the promoted label row has a value
    have hpro : (List.map (fun j => getCell r1 j)
        (keptCols hdr.length (dropEmptyRows hdr.length body))).any Option.isSome = true := by
      rw [List.any_eq_true]
      exact ⟨getCell r1 j, List.mem_map.mpr ⟨j, hjkeep, rfl⟩, hjs⟩
    -- no row of the remainder can match the semester label
    have hscan : gradeSectionIdx? (restrictRows
        (keptCols hdr.length (dropEmptyRows hdr.length body)) dtail) = none := by
      apply gradeSectionIdx?_eq_none
      intro r' hr' hbad
      rw [restrictRows] at hr'
      obtain ⟨rb, hrb, hrbe⟩ := List.mem_map.mp hr'
      have hrbbody : rb ∈ body := by
        have : rb ∈ dropEmptyRows hdr.length body := by
          rw [hdzeq]
          exact List.mem_cons_of_mem _ hrb
        exact (List.mem_filter.mp this).1
      rw [← hrbe, getCell] at hbad
      cases hk : (keptCols hdr.length (dropEmptyRows hdr.length body)).get? 0 with
      | none =>
        rw [show (List.map (fun j => getCell rb j)
          (keptCols hdr.length (dropEmptyRows hdr.length body))).get? 0 =
            Option.map (fun j => getCell rb j)
              ((keptCols hdr.length (dropEmptyRows hdr.length body)).get? 0) from
          (List.get?_map _ _ _), hk] at hbad
        simp at hbad
      | some j0 =>
        rw [show (List.map (fun j => getCell rb j)
          (keptCols hdr.length (dropEmptyRows hdr.length body))).get? 0 =
            Option.map (fun j => getCell rb j)
              ((keptCols hdr.length (dropEmptyRows hdr.length body)).get? 0) from
          (List.get?_map _ _ _), hk] at hbad
        simp only [Option.map_some', Option.getD_some] at hbad
        exact hnolabel rb hrbbody _ (getCell_some_mem hbad) rfl
    -- now evaluate the definition
    rw [hdzeq] at hpro hscan
    refine ⟨⟨(List.map (fun j => getCell r1 j)
        (keptCols hdr.length (r1 :: dtail))).map (fun c => c.getD ""),
      restrictRows (keptCols hdr.length (r1 :: dtail)) dtail⟩, ?_⟩
    simp only [preprocess_csv, hdzeq]
    rw [show restrictRows (keptCols hdr.length (r1 :: dtail)) (r1 :: dtail) =
      (List.map (fun j => getCell r1 j) (keptCols hdr.length (r1 :: dtail))) ::
        restrictRows (keptCols hdr.length (r1 :: dtail)) dtail from rfl]
    dsimp only
    rw [hpro]
    simp only [eq_self_iff_true, if_true]
    rw [hscan]

/-- **C5, amended.** For a grid whose data rows contain no `'학 기'` cell at
all (and at least one non-blank data row, so `preprocess_csv`'s empty-input
error path is not taken): the `preprocess_csv` → `extract_student_info`
pipeline succeeds without raising, returns an empty grades block and hence
empty per-semester grades, and still populates every subject and activity
remark whose column has a non-missing, non-empty first value. The
`process_csv_file` path does *not* have this property: it never scans for
the semester label and takes rows 3+ as grades regardless — see the
counterexample. -/
theorem C5_amended (hdr : Row) (body : Grid)
    (hrow : ∃ r ∈ body, rowAllNull hdr.length r = false)
    (hnolabel : ∀ r ∈ body, ∀ c ∈ r, c ≠ some "학 기") :
    ∃ main : DataFrame,
      preprocess_csv (hdr :: body) = Except.ok (main, (⟨[], []⟩ : DataFrame)) ∧
      (extract_student_info main ⟨[], []⟩).semester1.grades = [] ∧
      (extract_student_info main ⟨[], []⟩).semester2.grades = [] ∧
      (∀ s ∈ subjectCols, ∀ v : String,
        firstSome (colCells main s) = some v → v ≠ "" →
        dictFind? (extract_student_info main ⟨[], []⟩).subjects s = some v) ∧
      (∀ a : String, a ∉ subjectCols →
        (a ∈ activityCols ∨ activityCols.any (fun act => strHasSub a act) = true) →
        ∀ v : String, firstSome (colCells main a) = some v → v ≠ "" →
        dictFind? (extract_student_info main ⟨[], []⟩).activities a = some v) := by
  obtain ⟨main, hpre⟩ := preprocess_no_label hdr body hrow hnolabel
  refine ⟨main, hpre, rfl, rfl, ?_, ?_⟩
  · intro s hs v hv hne
    exact extractRemarks_subjects main hs hv hne
  · intro a ha1 ha2 v hv hne
    exact extractRemarks_activities main ha1 ha2 hv hne

/-- A `process_csv_file` grid with no `'학 기'` cell anywhere, whose row 3
nevertheless parses as a grade row. -/
def c5Grid : Grid :=
  [[some "국어", some "수학", some "A", some "B", some "C", some "D"],
   [some "성실하게 수업에 참여함", none, none, none, none, none],
   [none, none, none, none, none, none],
   [some "1", some "수학", some "1", some "90/70", some "A", some "2"]]

/-- **C5, counterexample.** `c5Grid` has no cell matching the semester-label
pattern, yet `process_csv_file` — which hard-codes the grades block at row 3
instead of scanning for the label — returns a record whose
`grades_by_semester` is *not* empty. -/
theorem C5_cex :
    (c5Grid.all (fun r => r.all (fun c => decide (c ≠ some "학 기")))) = true ∧
    (process_csv_file c5Grid).map (fun d => d.semester1) = some [("수학", ⟨90, 2, 1⟩)] ∧
    [("수학", (⟨90, 2, 1⟩ : GradeInfo))] ≠ [] := by
  have p1 : pyFloat? "1" = some 1 := by
    rw [pyFloat?_eq_of_parse (show pyParseDec "1" = some ⟨false, 1, 0, 0⟩ by decide), toRat_nat]
    norm_num
  have p2 : pyFloat? "2" = some 2 := by
    rw [pyFloat?_eq_of_parse (show pyParseDec "2" = some ⟨false, 2, 0, 0⟩ by decide), toRat_nat]
    norm_num
  have p90 : pyFloat? (pyStrip (headSlash "90/70")) = some 90 := by
    rw [show pyStrip (headSlash "90/70") = "90" by decide]
    rw [pyFloat?_eq_of_parse (show pyParseDec "90" = some ⟨false, 90, 0, 0⟩ by decide), toRat_nat]
    norm_num
  have s1 : pyStrip (pyStr (some "1")) = "1" := by decide
  have ssu : pyStrip (pyStr (some "수학")) = "수학" := by decide
  have hrem : procRemarks
      [some "국어", some "수학", some "A", some "B", some "C", some "D"]
      [some "성실하게 수업에 참여함", none, none, none, none, none] =
      ⟨[("국어", "성실하게 수업에 참여함")], [], "미정"⟩ := by decide
  refine ⟨by decide, ?_, by simp⟩
  norm_num [process_csv_file, process_csv_file_body, c5Grid, normRow, getCell,
    procGradeRow, List.range_succ, s1, ssu, hrem, p1, p2, p90, dictInsert,
    calculate_semester_average]

/-- The remarks-only grid used to instantiate the amended C5 theorem. -/
def c5wHdr : Row := [some "h1", some "h2", some "h3"]

/-- Its data rows: a label row and one remark row. -/
def c5wBody : Grid :=
  [[some "국어", some "자율", some "진로희망"],
   [some "성실함", some "자율활동 우수", some "의사"]]

/-- The remarks DataFrame `preprocess_csv` produces for that grid. -/
def c5wMain : DataFrame :=
  ⟨["국어", "자율", "진로희망"], [[some "성실함", some "자율활동 우수", some "의사"]]⟩

/-- **C5, witness**: the amended theorem applied to the concrete label-free
grid — extraction yields empty grades and the populated 국어 and 자율
remarks. -/
theorem C5_witness :
    (extract_student_info c5wMain ⟨[], []⟩).semester1.grades = [] ∧
    (extract_student_info c5wMain ⟨[], []⟩).semester2.grades = [] ∧
    dictFind? (extract_student_info c5wMain ⟨[], []⟩).subjects "국어" = some "성실함" ∧
    dictFind? (extract_student_info c5wMain ⟨[], []⟩).activities "자율" = some "자율활동 우수" := by
  obtain ⟨main, h1, h2, h3, h4, h5⟩ := C5_amended c5wHdr c5wBody
    (⟨[some "국어", some "자율", some "진로희망"], by decide, by decide⟩)
    (by decide)
  have hcomp : preprocess_csv (c5wHdr :: c5wBody) =
      Except.ok (c5wMain, (⟨[], []⟩ : DataFrame)) := by rfl
  have hm : c5wMain = main := congrArg Prod.fst (Except.ok.inj (hcomp.symm.trans h1))
  rw [hm]
  refine ⟨h2, h3, ?_, ?_⟩
  · exact h4 "국어" (by decide) "성실함" (by rw [← hm]; rfl) (by decide)
  · exact h5 "자율" (by decide) (Or.inl (by decide)) "자율활동 우수" (by rw [← hm]; rfl)
      (by decide)

end SRA
